import Mathlib

/-!
Verification development for the Finance-Agent repository.

The first-party logic under study is:
  * `FinancialDatasetsTools._make_request` and the tool methods of
    `src/agent_setup.py` (a REST client wrapper plus parameter shaping), and
  * the FastAPI handlers `analyze_indian_stocks` and `health_check` of
    `src/main.py`.

Shallow-embedding conventions used below:
  * Python `Optional` arguments become `Option` arguments; an argument that the
    caller did not supply is `none` and the Python default is filled in with
    `Option.getD`, exactly mirroring the source defaults.
  * Python truthiness of an `Optional[str]` (`if not self.api_key`, `if ticker`)
    is the boolean `truthyOptStr`: `none` and `some ""` are falsy.
  * The network is an oracle `net : HttpRequest → NetOutcome` standing for
    `requests.get`; `NetOutcome.response` is a completed HTTP exchange and
    `NetOutcome.transportError` is a `RequestException` raised before any
    response object exists (connection error, timeout).
  * `response.raise_for_status()` of the requests library raises `HTTPError`
    exactly for status codes in 400..599; the embedding tests the status with
    that range.  The text of the `HTTPError` is library-internal, so it is
    modelled abstractly by `httpErrorMessage`, a function of the status and the
    resolved URL (the data the library builds the message from).
  * The Python function returns strings in every case (`response.text`, or
    `json.dumps` of an error dict).  The embedding keeps the structure that is
    serialised: `ToolResponse.success body` is the verbatim body string, and the
    two error constructors carry the fields of the corresponding error dicts
    (`\x7b"error": "API key not set"\x7d` and
    `\x7b"error": "Request Failed", "url", "details", "response_text"\x7d`).
  * Parameter maps are association lists `List (String × Value)` in Python dict
    insertion order.
-/

/-- Scalar values placed in an outgoing parameter map: the source passes
strings, ints and one float literal (`min_change_percent=3.0`, representable
exactly, modelled as a rational). -/
inductive Value where
  | str (s : String)
  | int (n : Int)
  | float (q : ℚ)
deriving DecidableEq, Repr

/-- Python truthiness of an `Optional[str]`: `None` and `""` are falsy. -/
def truthyOptStr : Option String → Bool
  | none => false
  | some s => !(s == "")

/-- `BASE_URL` of `src/agent_setup.py` line 24. -/
def BASE_URL : String := "https://api.financialdatasets.ai"

/-- The interpolation `f"\x7bself.base_url\x7d/\x7bendpoint\x7d"` of
`src/agent_setup.py` line 55. -/
def resolveUrl (baseUrl endpoint : String) : String := baseUrl ++ "/" ++ endpoint

/-- One outgoing HTTP GET as issued by `requests.get(url, headers, params)`:
the resolved URL, the `X-API-KEY` header value, and the query parameters. -/
structure HttpRequest where
  url : String
  apiKeyHeader : String
  params : List (String × Value)
deriving DecidableEq, Repr

/-- Outcome of one `requests.get` call: either a completed response (status and
body text), or a `RequestException` raised with no response object bound
(connection error / timeout), carrying the exception message `str(e)`. -/
inductive NetOutcome where
  | response (status : Nat) (body : String)
  | transportError (msg : String)
deriving DecidableEq, Repr

/-- The `HTTPError` message produced by `response.raise_for_status()` for a
4xx/5xx status, modelled abstractly as a function of the data the requests
library builds it from (status code and URL); its exact wording is
library-internal and no claim depends on it. -/
def httpErrorMessage (status : Nat) (url : String) : String :=
  toString status ++ " Error for url: " ++ url

/-- Return value of `FinancialDatasetsTools._make_request`.  The source returns
a string in every case; this type keeps the structure that string serialises:
`success body` is `response.text` returned verbatim, `configError m` is
`json.dumps(\x7b"error": m\x7d)` with `m = "API key not set"`, and
`requestFailed url details responseText` is `json.dumps` of the
`error_details` dict of lines 64-69 (the `"error"` key there is the constant
`"Request Failed"`; `responseText` is `None` when no response was bound). -/
inductive ToolResponse where
  | success (body : String)
  | configError (message : String)
  | requestFailed (url : String) (details : String) (responseText : Option String)
deriving DecidableEq, Repr

/-- True exactly on the `requestFailed` error kind. -/
def isRequestFailed : ToolResponse → Bool
  | ToolResponse.requestFailed _ _ _ => true
  | _ => false

/-- `FinancialDatasetsTools._make_request` (src/agent_setup.py lines 45-71).
Besides the returned value, the embedding also returns the list of network
calls issued, so that "no network call attempted" is statable.
Control flow mirrors the source: if the api key is falsy, log and return the
config error dict with no network call; otherwise issue one GET; a
`RequestException` from the transport leaves `response` unbound so
`response_text` is `None`; `raise_for_status` raises for status 400..599, in
which case `response_text` is `response.text`; otherwise return
`response.text` verbatim. -/
def make_request (api_key : Option String) (endpoint : String)
    (params : List (String × Value)) (net : HttpRequest → NetOutcome) :
    ToolResponse × List HttpRequest :=
  if truthyOptStr api_key = false then
    (ToolResponse.configError "API key not set", [])
  else
    match net ⟨resolveUrl BASE_URL endpoint, api_key.getD "", params⟩ with
    | NetOutcome.transportError msg =>
        (ToolResponse.requestFailed (resolveUrl BASE_URL endpoint) msg none,
         [⟨resolveUrl BASE_URL endpoint, api_key.getD "", params⟩])
    | NetOutcome.response status body =>
        if 400 ≤ status ∧ status < 600 then
          (ToolResponse.requestFailed (resolveUrl BASE_URL endpoint)
            (httpErrorMessage status (resolveUrl BASE_URL endpoint)) (some body),
         [⟨resolveUrl BASE_URL endpoint, api_key.getD "", params⟩])
        else
          (ToolResponse.success body,
         [⟨resolveUrl BASE_URL endpoint, api_key.getD "", params⟩])

/-- Parameter map built by `get_indian_market_screen` (lines 87-92), in source
insertion order; unsupplied arguments take the signature defaults
`country="IN"`, `change_over_period="1d"`, `min_change_percent=3.0`,
`limit=10` (lines 76-81). -/
def marketScreenParams (country : Option String) (change_over_period : Option String)
    (min_change_percent : Option ℚ) (limit : Option Int) : List (String × Value) :=
  [("country", Value.str (country.getD "IN")),
   ("min_change_percent", Value.float (min_change_percent.getD 3)),
   ("period", Value.str (change_over_period.getD "1d")),
   ("limit", Value.int (limit.getD 10))]

/-- `FinancialDatasetsTools.get_indian_market_screen` (lines 76-94). -/
def get_indian_market_screen (api_key : Option String)
    (country change_over_period : Option String) (min_change_percent : Option ℚ)
    (limit : Option Int) (net : HttpRequest → NetOutcome) :
    ToolResponse × List HttpRequest :=
  make_request api_key "market/screener"
    (marketScreenParams country change_over_period min_change_percent limit) net

/-- Parameter map of `get_income_statements` (line 100); defaults
`period="annual"`, `limit=10` (line 99). -/
def incomeStatementsParams (ticker : String) (period : Option String)
    (limit : Option Int) : List (String × Value) :=
  [("ticker", Value.str ticker),
   ("period", Value.str (period.getD "annual")),
   ("limit", Value.int (limit.getD 10))]

/-- `FinancialDatasetsTools.get_income_statements` (lines 99-101). -/
def get_income_statements (api_key : Option String) (ticker : String)
    (period : Option String) (limit : Option Int)
    (net : HttpRequest → NetOutcome) : ToolResponse × List HttpRequest :=
  make_request api_key "financials/income-statements"
    (incomeStatementsParams ticker period limit) net

/-- Parameter map of `get_news` (lines 124-126): `limit` first (default 50),
then `ticker` added only when truthy (`if ticker:`). -/
def newsParams (ticker : Option String) (limit : Option Int) :
    List (String × Value) :=
  if truthyOptStr ticker = true then
    [("limit", Value.int (limit.getD 50)), ("ticker", Value.str (ticker.getD ""))]
  else
    [("limit", Value.int (limit.getD 50))]

/-- `FinancialDatasetsTools.get_news` (lines 123-127). -/
def get_news (api_key : Option String) (ticker : Option String)
    (limit : Option Int) (net : HttpRequest → NetOutcome) :
    ToolResponse × List HttpRequest :=
  make_request api_key "news" (newsParams ticker limit) net

/-- Parameter map of `get_sec_filings` (lines 141-143): `ticker` and `limit`
(default 50), then `form_type` added only when truthy (`if form_type:`). -/
def secFilingsParams (ticker : String) (form_type : Option String)
    (limit : Option Int) : List (String × Value) :=
  if truthyOptStr form_type = true then
    [("ticker", Value.str ticker), ("limit", Value.int (limit.getD 50)),
     ("form_type", Value.str (form_type.getD ""))]
  else
    [("ticker", Value.str ticker), ("limit", Value.int (limit.getD 50))]

/-- `FinancialDatasetsTools.get_sec_filings` (lines 140-144). -/
def get_sec_filings (api_key : Option String) (ticker : String)
    (form_type : Option String) (limit : Option Int)
    (net : HttpRequest → NetOutcome) : ToolResponse × List HttpRequest :=
  make_request api_key "sec-filings" (secFilingsParams ticker form_type limit) net

/-- Declared signature of one tool parameter: its name and its declared default
(`none` when the parameter is required, i.e. has no default in the Python
signature). -/
structure ParamSpec where
  name : String
  defaultValue : Option Value
deriving DecidableEq, Repr

/-- Declared signature of one tool: registered name, endpoint, parameters. -/
structure ToolSpec where
  toolName : String
  endpoint : String
  paramSpecs : List ParamSpec
deriving DecidableEq, Repr

/-- The declared signature of `get_indian_market_screen`
(src/agent_setup.py lines 74-82, 94): every parameter of the Python signature
carries a default (`country="IN"`, `change_over_period="1d"`,
`min_change_percent=3.0`, `limit=10`), and the endpoint is
`market/screener`. -/
def marketScreenSpec : ToolSpec :=
  { toolName := "get_indian_market_screen"
    endpoint := "market/screener"
    paramSpecs :=
      [⟨"country", some (Value.str "IN")⟩,
       ⟨"change_over_period", some (Value.str "1d")⟩,
       ⟨"min_change_percent", some (Value.float 3)⟩,
       ⟨"limit", some (Value.int 10)⟩] }

/-- The declared default of parameter `n` in tool `ts`: `none` when no such
parameter is declared, `some none` when it is declared required, and
`some (some v)` when it is declared with default `v`. -/
def paramDefault (ts : ToolSpec) (n : String) : Option (Option Value) :=
  (ts.paramSpecs.find? (fun p => p.name == n)).map ParamSpec.defaultValue

/-- Process environment as read by `src/main.py`: the two credentials checked
by the `/analyze` handler (`FMP_API_KEY` and `GEMINI_API_KEY`); a variable
absent from the environment is `none` (`os.environ.get`). -/
structure Env where
  fmpApiKey : Option String
  geminiApiKey : Option String
deriving DecidableEq, Repr

/-- A rendered `TemplateResponse`: HTTP status (FastAPI default 200, never
overridden in the source), template name, and the `analysis_result` context
value rendered into the page (`none` renders the empty page). -/
structure HtmlPage where
  status : Nat
  template : String
  analysisResult : Option String
deriving DecidableEq, Repr

/-- The error markup `f"<div class='error-message'>\x7berror_detail\x7d</div>"`
used by both error paths of the `/analyze` handler. -/
def errorDiv (detail : String) : String :=
  "<div class=\x27error-message\x27>" ++ detail ++ "</div>"

/-- Outcome of `team_leader.run(task, ...)`: the final text output, or an
exception raised inside the agent framework, carrying `str(e)`. -/
inductive OrchestratorResult where
  | ok (text : String)
  | raises (msg : String)
deriving DecidableEq, Repr

/-- The `POST /analyze` handler `analyze_indian_stocks` (src/main.py lines
53-88).  The orchestrator (team construction plus `team_leader.run`) is the
oracle `orch`; the boolean result records whether it was invoked.  Mirrors the
source: if either credential is falsy, render the config error message without
touching the orchestrator; otherwise run it, rendering its text on success and
rendering `"Agent execution failed. Internal error: " + str(e)` when it
raises.  Every branch returns `templates.TemplateResponse("index.html", ...)`
with no `status_code` argument, hence status 200. -/
def analyze_indian_stocks (env : Env) (orch : String → OrchestratorResult)
    (task : String) : HtmlPage × Bool :=
  if truthyOptStr env.fmpApiKey = false ∨ truthyOptStr env.geminiApiKey = false then
    (⟨200, "index.html",
      some (errorDiv "Required API keys are not configured in the environment.")⟩,
     false)
  else
    match orch task with
    | OrchestratorResult.ok text => (⟨200, "index.html", some text⟩, true)
    | OrchestratorResult.raises msg =>
        (⟨200, "index.html",
          some (errorDiv ("Agent execution failed. Internal error: " ++ msg))⟩,
         true)

/-- Body of the `GET /health` response (src/main.py lines 93-96). -/
structure HealthBody where
  message : String
  endpoints : List (String × String)
deriving DecidableEq, Repr

/-- The `GET /health` handler `health_check` (src/main.py lines 91-96): returns
a constant readiness object; FastAPI default status 200.  The handler body
reads nothing from the environment, so the `Env` argument is unused. -/
def health_check (_env : Env) : Nat × HealthBody :=
  (200,
   { message := "Indian Finance Agent API is running."
     endpoints := [("health_check", "/health (GET)"), ("analysis", "/analyze (POST)")] })

/-- C1: for every call to `_make_request` while no credential is configured
(the api key is falsy: absent or empty), the result is the config-kind
structured error (the `"error": "API key not set"` payload of line 51) and the
list of issued network calls is empty. -/
theorem C1_missing_credential_no_network (api_key : Option String)
    (endpoint : String) (params : List (String × Value))
    (net : HttpRequest → NetOutcome)
    (hkey : truthyOptStr api_key = false) :
    make_request api_key endpoint params net =
      (ToolResponse.configError "API key not set", []) := by
  simp [make_request, hkey]

/-- C1 witness: with no api key configured, a `get_news`-style call returns
the config error and issues zero network calls, even though the network oracle
would answer 200. -/
theorem C1_missing_credential_no_network_witness :
    make_request none "news" [("limit", Value.int 50)]
        (fun _ => NetOutcome.response 200 "ok") =
      (ToolResponse.configError "API key not set", []) :=
  C1_missing_credential_no_network none "news" [("limit", Value.int 50)]
    (fun _ => NetOutcome.response 200 "ok") rfl

/-- C2 counterexample: the claim quantifies over every non-2xx HTTP status, but
`raise_for_status` raises only for 400..599.  At status 304 (non-2xx, response
received) the code returns the body as a success value and no `request_failed`
error: the claim as stated is false. -/
theorem C2_request_failed_counterexample :
    (make_request (some "k") "company" [("ticker", Value.str "TCS.NS")]
        (fun _ => NetOutcome.response 304 "cached")).1 =
      ToolResponse.success "cached" ∧
    isRequestFailed
      (make_request (some "k") "company" [("ticker", Value.str "TCS.NS")]
        (fun _ => NetOutcome.response 304 "cached")).1 = false := by
  constructor <;> rfl

/-- C2 (amended): for every request that fails — transport error (network
error/timeout) or HTTP status in 400..599 — `_make_request` returns (never
raises) the `request_failed`-kind structured error whose url field is the
resolved URL `BASE_URL/endpoint`, whose details field is the message of the
actual failure (the transport exception text, resp. the `HTTPError` text built
from the actual status and URL), and whose response-text field is the actual
response body when a response was received and `None` otherwise. -/
theorem C2_request_failed_structured (api_key : Option String) (endpoint : String)
    (params : List (String × Value)) (net : HttpRequest → NetOutcome)
    (hkey : truthyOptStr api_key = true) :
    (∀ msg : String,
      net ⟨resolveUrl BASE_URL endpoint, api_key.getD "", params⟩ =
          NetOutcome.transportError msg →
      (make_request api_key endpoint params net).1 =
        ToolResponse.requestFailed (resolveUrl BASE_URL endpoint) msg none) ∧
    (∀ (status : Nat) (body : String),
      net ⟨resolveUrl BASE_URL endpoint, api_key.getD "", params⟩ =
          NetOutcome.response status body →
      400 ≤ status → status < 600 →
      (make_request api_key endpoint params net).1 =
        ToolResponse.requestFailed (resolveUrl BASE_URL endpoint)
          (httpErrorMessage status (resolveUrl BASE_URL endpoint)) (some body)) := by
  constructor
  · intro msg hnet
    simp [make_request, hkey, hnet]
  · intro status body hnet h4 h6
    simp [make_request, hkey, hnet, h4, h6]

/-- C2 witness: a concrete 404 with body `"nf"` yields the `request_failed`
error with the resolved URL, the HTTPError diagnostic, and the body. -/
theorem C2_request_failed_structured_witness :
    (make_request (some "k") "company" [("ticker", Value.str "TCS.NS")]
        (fun _ => NetOutcome.response 404 "nf")).1 =
      ToolResponse.requestFailed "https://api.financialdatasets.ai/company"
        (httpErrorMessage 404 "https://api.financialdatasets.ai/company")
        (some "nf") :=
  (C2_request_failed_structured (some "k") "company"
      [("ticker", Value.str "TCS.NS")] (fun _ => NetOutcome.response 404 "nf")
      rfl).2 404 "nf" rfl (by decide) (by decide)

/-- C3: for every request completing with a 2xx status, `_make_request` returns
the response body verbatim (the success value is the body string itself, with
no transformation), and exactly one GET was issued. -/
theorem C3_success_verbatim (api_key : Option String) (endpoint : String)
    (params : List (String × Value)) (net : HttpRequest → NetOutcome)
    (status : Nat) (body : String)
    (hkey : truthyOptStr api_key = true)
    (hnet : net ⟨resolveUrl BASE_URL endpoint, api_key.getD "", params⟩ =
      NetOutcome.response status body)
    (h2 : 200 ≤ status) (h3 : status ≤ 299) :
    make_request api_key endpoint params net =
      (ToolResponse.success body,
       [⟨resolveUrl BASE_URL endpoint, api_key.getD "", params⟩]) := by
  have hno : ¬ (400 ≤ status ∧ status < 600) := by omega
  simp [make_request, hkey, hnet, hno]

/-- C3 witness: a concrete 200 response with body `"\x7b\x7d"` is returned
exactly. -/
theorem C3_success_verbatim_witness :
    make_request (some "k") "prices" [("ticker", Value.str "RELIANCE.NS")]
        (fun _ => NetOutcome.response 200 "\x7b\x7d") =
      (ToolResponse.success "\x7b\x7d",
       [⟨"https://api.financialdatasets.ai/prices", "k",
         [("ticker", Value.str "RELIANCE.NS")]⟩]) :=
  C3_success_verbatim (some "k") "prices" [("ticker", Value.str "RELIANCE.NS")]
    (fun _ => NetOutcome.response 200 "\x7b\x7d") 200 "\x7b\x7d" rfl rfl
    (by decide) (by decide)

/-- C4 counterexample: with both credentials configured and an orchestrator
that raises, the `/analyze` handler returns status 200 — not a 500-class
response — while embedding the exception message in the page.  The claim that
a 500-class response is returned is false on the code. -/
theorem C4_orchestrator_exception_counterexample :
    (analyze_indian_stocks ⟨some "k", some "g"⟩
        (fun _ => OrchestratorResult.raises "boom") "t").1.status = 200 ∧
    ¬ (500 ≤ (analyze_indian_stocks ⟨some "k", some "g"⟩
        (fun _ => OrchestratorResult.raises "boom") "t").1.status ∧
       (analyze_indian_stocks ⟨some "k", some "g"⟩
        (fun _ => OrchestratorResult.raises "boom") "t").1.status ≤ 599) := by
  constructor
  · rfl
  · intro h
    have : (analyze_indian_stocks ⟨some "k", some "g"⟩
        (fun _ => OrchestratorResult.raises "boom") "t").1.status = 200 := rfl
    omega

/-- C4 (amended): for every `/analyze` request during which the orchestrator
raises, the handler catches the exception and returns an HTTP 200 HTML
response whose content is the error markup embedding
`"Agent execution failed. Internal error: "` followed by the exception
message (not a 500-class response). -/
theorem C4_orchestrator_exception_caught (env : Env)
    (orch : String → OrchestratorResult) (task msg : String)
    (hf : truthyOptStr env.fmpApiKey = true)
    (hg : truthyOptStr env.geminiApiKey = true)
    (horch : orch task = OrchestratorResult.raises msg) :
    analyze_indian_stocks env orch task =
      (⟨200, "index.html",
        some (errorDiv ("Agent execution failed. Internal error: " ++ msg))⟩,
       true) := by
  simp [analyze_indian_stocks, hf, hg, horch]

/-- C4 witness: concrete configured environment, orchestrator raising
`"boom"`: the handler returns the 200 page carrying the error markup with the
exception text. -/
theorem C4_orchestrator_exception_caught_witness :
    analyze_indian_stocks ⟨some "k", some "g"⟩
        (fun _ => OrchestratorResult.raises "boom") "analyze" =
      (⟨200, "index.html",
        some (errorDiv ("Agent execution failed. Internal error: " ++ "boom"))⟩,
       true) :=
  C4_orchestrator_exception_caught ⟨some "k", some "g"⟩
    (fun _ => OrchestratorResult.raises "boom") "analyze" "boom" rfl rfl rfl

/-- C5 counterexample: in the declared signature of the market screen tool,
`country` and `min_change_percent` are not required — they carry the defaults
`"IN"` and `3.0` — and no parameter named `period` is declared at all (the
period parameter is named `change_over_period`, defaulting to `"1d"`).  The
claim that `country`, `period` and `min_change_percent` are required
parameters with no defaults is false on the code. -/
theorem C5_market_screen_counterexample :
    paramDefault marketScreenSpec "country" ≠ some none ∧
    paramDefault marketScreenSpec "min_change_percent" ≠ some none ∧
    paramDefault marketScreenSpec "period" = none ∧
    paramDefault marketScreenSpec "country" = some (some (Value.str "IN")) ∧
    paramDefault marketScreenSpec "min_change_percent" =
      some (some (Value.float 3)) := by
  refine ⟨?_, ?_, rfl, rfl, rfl⟩ <;> decide

/-- C5 (amended): the market screen operation issues its request against the
endpoint `market/screener`, and every one of its parameters is optional with a
declared default: `country="IN"`, `change_over_period="1d"` (sent under the
request key `period`), `min_change_percent=3.0`, `limit=10`; a call supplying
nothing produces the fully defaulted parameter map. -/
theorem C5_market_screen_defaults :
    marketScreenSpec.endpoint = "market/screener" ∧
    paramDefault marketScreenSpec "country" = some (some (Value.str "IN")) ∧
    paramDefault marketScreenSpec "change_over_period" =
      some (some (Value.str "1d")) ∧
    paramDefault marketScreenSpec "min_change_percent" =
      some (some (Value.float 3)) ∧
    paramDefault marketScreenSpec "limit" = some (some (Value.int 10)) ∧
    marketScreenParams none none none none =
      [("country", Value.str "IN"), ("min_change_percent", Value.float 3),
       ("period", Value.str "1d"), ("limit", Value.int 10)] ∧
    (∀ (api_key : Option String) (country change_over_period : Option String)
        (min_change_percent : Option ℚ) (limit : Option Int)
        (net : HttpRequest → NetOutcome),
      get_indian_market_screen api_key country change_over_period
          min_change_percent limit net =
        make_request api_key "market/screener"
          (marketScreenParams country change_over_period min_change_percent limit)
          net) :=
  ⟨rfl, rfl, rfl, rfl, rfl, rfl, fun _ _ _ _ _ _ => rfl⟩

/-- C6: a call to the income statements operation supplying only
`ticker="TCS.NS"` produces exactly the parameter map
`ticker="TCS.NS", period="annual", limit=10` (declared defaults merged in),
and the operation returns the API client result for that map on the
`financials/income-statements` endpoint unchanged. -/
theorem C6_income_statements_defaults (api_key : Option String)
    (net : HttpRequest → NetOutcome) :
    incomeStatementsParams "TCS.NS" none none =
      [("ticker", Value.str "TCS.NS"), ("period", Value.str "annual"),
       ("limit", Value.int 10)] ∧
    get_income_statements api_key "TCS.NS" none none net =
      make_request api_key "financials/income-statements"
        [("ticker", Value.str "TCS.NS"), ("period", Value.str "annual"),
         ("limit", Value.int 10)] net :=
  ⟨rfl, rfl⟩

/-- C7: a call to the news operation with no ticker supplied produces a
parameter map whose only key is `limit`; the key `ticker` is entirely absent,
and the operation passes that map to the `news` endpoint. -/
theorem C7_news_without_ticker (api_key : Option String) (limit : Option Int)
    (net : HttpRequest → NetOutcome) :
    newsParams none limit = [("limit", Value.int (limit.getD 50))] ∧
    (newsParams none limit).map Prod.fst = ["limit"] ∧
    "ticker" ∉ (newsParams none limit).map Prod.fst ∧
    get_news api_key none limit net =
      make_request api_key "news" (newsParams none limit) net := by
  refine ⟨rfl, rfl, ?_, rfl⟩
  simp [newsParams, truthyOptStr]

/-- C8: for every `/analyze` request made while either required credential
(`FMP_API_KEY` or `GEMINI_API_KEY`) is missing (falsy), the handler returns
the configuration error page and the orchestrator is never invoked. -/
theorem C8_missing_env_no_orchestrator (env : Env)
    (orch : String → OrchestratorResult) (task : String)
    (h : truthyOptStr env.fmpApiKey = false ∨
         truthyOptStr env.geminiApiKey = false) :
    analyze_indian_stocks env orch task =
      (⟨200, "index.html",
        some (errorDiv "Required API keys are not configured in the environment.")⟩,
       false) := by
  rcases h with h | h <;> simp [analyze_indian_stocks, h]

/-- C8 witness: with `FMP_API_KEY` absent and `GEMINI_API_KEY` set, the
handler returns the configuration error page without invoking the
orchestrator. -/
theorem C8_missing_env_no_orchestrator_witness :
    analyze_indian_stocks ⟨none, some "g"⟩
        (fun _ => OrchestratorResult.ok "analysis") "task" =
      (⟨200, "index.html",
        some (errorDiv "Required API keys are not configured in the environment.")⟩,
       false) :=
  C8_missing_env_no_orchestrator ⟨none, some "g"⟩
    (fun _ => OrchestratorResult.ok "analysis") "task" (Or.inl rfl)

/-- C9: every `GET /health` request returns HTTP status 200 with the constant
descriptive readiness object, for every credential state — the response does
not depend on the environment. -/
theorem C9_health_always_200 (env env2 : Env) :
    health_check env =
      (200,
       ⟨"Indian Finance Agent API is running.",
        [("health_check", "/health (GET)"), ("analysis", "/analyze (POST)")]⟩) ∧
    health_check env = health_check env2 :=
  ⟨rfl, rfl⟩

/-- C10: optional string parameters supplied as the empty string are treated
as absent, because presence is decided by truthiness: `get_news` with
`ticker=""` omits `ticker` from the parameter map (same map as with no
ticker), and `get_sec_filings` with `form_type=""` omits `form_type`. -/
theorem C10_empty_string_treated_as_absent (ticker : String)
    (limit : Option Int) :
    newsParams (some "") limit = newsParams none limit ∧
    "ticker" ∉ (newsParams (some "") limit).map Prod.fst ∧
    secFilingsParams ticker (some "") limit = secFilingsParams ticker none limit ∧
    "form_type" ∉ (secFilingsParams ticker (some "") limit).map Prod.fst := by
  refine ⟨rfl, ?_, rfl, ?_⟩ <;> simp [newsParams, secFilingsParams, truthyOptStr]
